import Mathlib

/-! Mock worker clients of the master (`internal/master/client.go`)

A shallow embedding of the three simulated clients the master uses to talk to
the write node, the index builder and the query node.  Every method is a pure
function of the client value held before the call, of the instant the method
reads from `time.Now()`, and of its arguments; it yields the client value held
after the call together with the Go return values.

Modelling conventions

* `time.Time` is an instant, counted in nanoseconds from the zero instant of
  the Go `time` package; the zero value of `time.Time` is the instant `0`.
* `Time.Sub` is the saturating difference of the Go library: the result is
  an `int64` number of nanoseconds, clamped to `minDuration`/`maxDuration`.
* `Duration.Seconds` is computed with the formula of the Go library
  (`sec := d / Second; nsec := d % Second; sec + nsec / 1e9`) over the
  rationals.  Go evaluates it in `float64`; the only use the program makes of
  the value is the test `> 2`, and on the whole `int64` range the rounded and
  the exact value agree on that test (`sec` is below `2^53`, hence exact, and
  the fractional part is a multiple of `1e-9`, far coarser than the spacing
  of doubles around `2`).
* `int64` identifiers are integers, `uint64` timestamps are naturals; the
  program does no arithmetic on either.
* the `sync.RWMutex` of the write-node mock has no sequential effect and is
  left out.
* `GetIndexStates` and `GetIndexFilePaths` are given twice: on the message a
  non-nil request points to, and (`GetIndexStatesPtr`, `GetIndexFilePathsPtr`)
  on the request pointer itself, where `none` is the nil pointer and reading
  `req.IndexIDs` through it is a run-time panic.
-/

namespace master

/-! ## Library types -/

/-- Identifier type of the master, an `int64`. -/
abbrev UniqueID := Int

/-- Hybrid timestamp type of the master, a `uint64`. -/
abbrev Timestamp := Nat

/-- Value of the Go `error` interface; `none` is `nil`. -/
abbrev GoError := String

/-- Go `time.Duration`: a signed count of nanoseconds. -/
abbrev Duration := Int

/-- Smallest `time.Duration`, `-1 << 63`. -/
def minDuration : Int := -9223372036854775808

/-- Largest `time.Duration`, `1<<63 - 1`. -/
def maxDuration : Int := 9223372036854775807

/-- The Go constant `time.Second`, in nanoseconds. -/
def Second : Int := 1000000000

/-- Go `time.Time`, as nanoseconds elapsed since the zero instant. -/
structure Time where
  ns : Int
deriving DecidableEq, Repr

/-- Zero value of `time.Time`, the content of a freshly allocated client. -/
def Time.zero : Time := ⟨0⟩

/-- Go `t.Sub(u)`: the difference `t - u`, saturated to the `int64` range. -/
def Time.Sub (t u : Time) : Duration :=
  let d := t.ns - u.ns
  if d < minDuration then minDuration
  else if maxDuration < d then maxDuration
  else d

/-- Go `d.Seconds()`: whole seconds plus the fractional remainder. -/
def Duration.Seconds (d : Duration) : ℚ :=
  let sec := Int.tdiv d Second
  let nsec := Int.tmod d Second
  (sec : ℚ) + (nsec : ℚ) / 1000000000

/-- Outcome of a method call: the client after the call, the returned value
and the returned `error`. -/
structure Result (σ ρ : Type) where
  client : σ
  resp : ρ
  err : Option GoError
deriving DecidableEq, Repr

/-! ## Protocol types referenced by the clients -/

/-- Modelled from the spec: `commonpb.ErrorCode` is declared outside the
source file; the status envelope carries `SUCCESS` or a non-success code. -/
inductive ErrorCode where
  | SUCCESS
  | UNEXPECTED_ERROR
deriving DecidableEq, Repr

/-- Modelled from the spec: `commonpb.IndexState` is declared outside the
source file; a poll snapshot is `IN_PROGRESS` or `FINISHED`. -/
inductive IndexState where
  | INPROGRESS
  | FINISHED
deriving DecidableEq, Repr

/-- The message `commonpb.Status`, with the field the clients set. -/
structure Status where
  ErrorCode : ErrorCode
deriving DecidableEq, Repr

/-- The struct `writerclient.SegmentDescription`. -/
structure SegmentDescription where
  SegmentID : UniqueID
  IsClosed : Bool
  OpenTime : Timestamp
  CloseTime : Timestamp
deriving DecidableEq, Repr

/-- The message `indexpb.BuildIndexResponse`. -/
structure BuildIndexResponse where
  Status : Status
  IndexID : Int
deriving DecidableEq, Repr

/-- The message `indexpb.IndexStatesRequest`. -/
structure IndexStatesRequest where
  IndexIDs : List Int
deriving DecidableEq, Repr

/-- The message `indexpb.IndexInfo`. -/
structure IndexInfo where
  State : IndexState
  IndexID : Int
deriving DecidableEq, Repr

/-- The message `indexpb.IndexStatesResponse`. -/
structure IndexStatesResponse where
  Status : Status
  States : List IndexInfo
deriving DecidableEq, Repr

/-- The message `indexpb.IndexFilePathsRequest`. -/
structure IndexFilePathsRequest where
  IndexIDs : List Int
deriving DecidableEq, Repr

/-- The message `indexpb.IndexFilePathInfo`. -/
structure IndexFilePathInfo where
  Status : Status
  IndexID : Int
  IndexFilePaths : List String
deriving DecidableEq, Repr

/-- The message `indexpb.IndexFilePathsResponse`. -/
structure IndexFilePathsResponse where
  Status : Status
  FilePaths : List IndexFilePathInfo
deriving DecidableEq, Repr

/-! ## The write-node mock -/

/-- The struct `MockWriteNodeClient`: the last flush submission. -/
structure MockWriteNodeClient where
  segmentID : UniqueID
  flushTime : Time
  partitionTag : String
  timestamp : Timestamp
  collectionID : UniqueID
deriving DecidableEq, Repr

/-- The method `FlushSegment`; `now` is the value read from `time.Now()`. -/
def MockWriteNodeClient.FlushSegment (m : MockWriteNodeClient) (now : Time)
    (segmentID : UniqueID) (collectionID : UniqueID) (partitionTag : String)
    (timestamp : Timestamp) : Result MockWriteNodeClient Unit :=
  let m := { m with flushTime := now }
  let m := { m with segmentID := segmentID }
  let m := { m with collectionID := collectionID }
  let m := { m with partitionTag := partitionTag }
  let m := { m with timestamp := timestamp }
  { client := m, resp := (), err := none }

/-- The method `DescribeSegment`; `now` is the value read from `time.Now()`. -/
def MockWriteNodeClient.DescribeSegment (m : MockWriteNodeClient) (now : Time)
    (segmentID : UniqueID) : Result MockWriteNodeClient SegmentDescription :=
  if 2 < Duration.Seconds (now.Sub m.flushTime) then
    { client := m,
      resp := { SegmentID := segmentID, IsClosed := true, OpenTime := 0, CloseTime := 1 },
      err := none }
  else
    { client := m,
      resp := { SegmentID := segmentID, IsClosed := false, OpenTime := 0, CloseTime := 1 },
      err := none }

/-- The method `GetInsertBinlogPaths`; the returned Go map is listed as its
key/value pairs in increasing key order. -/
def MockWriteNodeClient.GetInsertBinlogPaths (m : MockWriteNodeClient)
    (_segmentID : UniqueID) : Result MockWriteNodeClient (List (UniqueID × List String)) :=
  { client := m,
    resp := [(1, ["/binlog/insert/file_1"]), (100, ["/binlog/insert/file_100"])],
    err := none }

/-! ## The index-builder mock -/

/-- The struct `MockBuildIndexClient`: the instant of the last submission. -/
structure MockBuildIndexClient where
  buildTime : Time
deriving DecidableEq, Repr

/-- The method `BuildIndex`, for a request of any type `α` (the request is
not inspected); `now` is the value read from `time.Now()`. -/
def MockBuildIndexClient.BuildIndex {α : Type} (m : MockBuildIndexClient) (now : Time)
    (_req : α) : Result MockBuildIndexClient BuildIndexResponse :=
  let m := { m with buildTime := now }
  { client := m,
    resp := { Status := { ErrorCode := ErrorCode.SUCCESS }, IndexID := 1 },
    err := none }

/-- The method `GetIndexStates`; each `for ... range` loop appends one entry
per requested identifier to the initially empty slice `indexStates`. -/
def MockBuildIndexClient.GetIndexStates (m : MockBuildIndexClient) (now : Time)
    (req : IndexStatesRequest) : Result MockBuildIndexClient IndexStatesResponse :=
  let ret : IndexStatesResponse :=
    { Status := { ErrorCode := ErrorCode.SUCCESS }, States := [] }
  let indexStates : List IndexInfo := []
  if 2 < Duration.Seconds (now.Sub m.buildTime) then
    let indexStates := req.IndexIDs.foldl
      (fun indexStates indexID =>
        indexStates ++ [{ State := IndexState.FINISHED, IndexID := indexID }])
      indexStates
    { client := m, resp := { ret with States := indexStates }, err := none }
  else
    let indexStates := req.IndexIDs.foldl
      (fun indexStates indexID =>
        indexStates ++ [{ State := IndexState.INPROGRESS, IndexID := indexID }])
      indexStates
    { client := m, resp := { ret with States := indexStates }, err := none }

/-- The method `GetIndexFilePaths`. -/
def MockBuildIndexClient.GetIndexFilePaths (m : MockBuildIndexClient)
    (req : IndexFilePathsRequest) : Result MockBuildIndexClient IndexFilePathsResponse :=
  let filePathInfos : List IndexFilePathInfo := []
  let filePathInfos := req.IndexIDs.foldl
    (fun filePathInfos indexID =>
      filePathInfos ++
        [{ Status := { ErrorCode := ErrorCode.SUCCESS },
           IndexID := indexID,
           IndexFilePaths :=
             ["/binlog/index/file_1", "/binlog/index/file_2", "/binlog/index/file_3"] }])
    filePathInfos
  { client := m,
    resp := { Status := { ErrorCode := ErrorCode.SUCCESS }, FilePaths := filePathInfos },
    err := none }

/-! ## The index-loader mock -/

/-- The struct `MockLoadIndexClient`, which has no field. -/
structure MockLoadIndexClient where
deriving DecidableEq, Repr

/-- The method `LoadIndex`; `indexParams` is the Go map as key/value pairs. -/
def MockLoadIndexClient.LoadIndex (m : MockLoadIndexClient) (_indexPaths : List String)
    (_segmentID : Int) (_fieldID : Int) (_fieldName : String)
    (_indexParams : List (String × String)) : Result MockLoadIndexClient Unit :=
  { client := m, resp := (), err := none }

/-- Two seconds, in nanoseconds: the maturation threshold of both mocks. -/
def twoSeconds : Int := 2000000000

/-- Zero value of `MockWriteNodeClient`, a client on which no method was
called: every field holds the zero value of its type. -/
def MockWriteNodeClient.zero : MockWriteNodeClient :=
  MockWriteNodeClient.mk 0 Time.zero "" 0 0

/-- Zero value of `MockBuildIndexClient`, a client on which no method was
called. -/
def MockBuildIndexClient.zero : MockBuildIndexClient :=
  MockBuildIndexClient.mk Time.zero

/-! ## The polled methods on a request pointer -/

/-- Run-time panic of a Go program, which ends the call without a return
value. -/
inductive GoPanic where
  | nilPointerDereference
deriving DecidableEq, Repr

/-- The method `GetIndexStates` on its pointer parameter: `none` is the nil
pointer, and `range req.IndexIDs` (lines 94 and 104) reads the field through
it without a guard, so a nil request panics in either branch. -/
def MockBuildIndexClient.GetIndexStatesPtr (m : MockBuildIndexClient) (now : Time)
    (req : Option IndexStatesRequest) :
    Except GoPanic (Result MockBuildIndexClient IndexStatesResponse) :=
  let ret : IndexStatesResponse :=
    { Status := { ErrorCode := ErrorCode.SUCCESS }, States := [] }
  let indexStates : List IndexInfo := []
  if 2 < Duration.Seconds (now.Sub m.buildTime) then
    match req with
    | none => Except.error GoPanic.nilPointerDereference
    | some req =>
      let indexStates := req.IndexIDs.foldl
        (fun indexStates indexID =>
          indexStates ++ [{ State := IndexState.FINISHED, IndexID := indexID }])
        indexStates
      Except.ok { client := m, resp := { ret with States := indexStates }, err := none }
  else
    match req with
    | none => Except.error GoPanic.nilPointerDereference
    | some req =>
      let indexStates := req.IndexIDs.foldl
        (fun indexStates indexID =>
          indexStates ++ [{ State := IndexState.INPROGRESS, IndexID := indexID }])
        indexStates
      Except.ok { client := m, resp := { ret with States := indexStates }, err := none }

/-- The method `GetIndexFilePaths` on its pointer parameter: `none` is the
nil pointer, and `range req.IndexIDs` (line 117) reads the field through it
without a guard, so a nil request panics. -/
def MockBuildIndexClient.GetIndexFilePathsPtr (m : MockBuildIndexClient)
    (req : Option IndexFilePathsRequest) :
    Except GoPanic (Result MockBuildIndexClient IndexFilePathsResponse) :=
  let filePathInfos : List IndexFilePathInfo := []
  match req with
  | none => Except.error GoPanic.nilPointerDereference
  | some req =>
    let filePathInfos := req.IndexIDs.foldl
      (fun filePathInfos indexID =>
        filePathInfos ++
          [{ Status := { ErrorCode := ErrorCode.SUCCESS },
             IndexID := indexID,
             IndexFilePaths :=
               ["/binlog/index/file_1", "/binlog/index/file_2", "/binlog/index/file_3"] }])
      filePathInfos
    Except.ok
      { client := m,
        resp := { Status := { ErrorCode := ErrorCode.SUCCESS }, FilePaths := filePathInfos },
        err := none }

/-! ## Arithmetic of the elapsed-time test -/

theorem Seconds_eq (d : Duration) : Duration.Seconds d = (d : ℚ) / 1000000000 := by
  have h := Int.tdiv_add_tmod d 1000000000
  have hq : ((1000000000 * Int.tdiv d 1000000000 + Int.tmod d 1000000000 : Int) : ℚ) = (d : ℚ) := by
    rw [h]
  push_cast at hq
  unfold Duration.Seconds Second
  simp only
  rw [← hq]
  ring

theorem Seconds_gt_two_iff (d : Duration) :
    2 < Duration.Seconds d ↔ twoSeconds < d := by
  rw [Seconds_eq, lt_div_iff₀ (by norm_num)]
  unfold twoSeconds
  constructor
  · intro h
    have : ((2000000000 : Int) : ℚ) < (d : ℚ) := by push_cast; linarith
    exact_mod_cast this
  · intro h
    have : ((2000000000 : Int) : ℚ) < (d : ℚ) := by exact_mod_cast h
    push_cast at this
    linarith

theorem Sub_gt_two_iff (now t0 : Time) :
    twoSeconds < now.Sub t0 ↔ t0.ns + twoSeconds < now.ns := by
  unfold Time.Sub minDuration maxDuration twoSeconds
  simp only
  split_ifs <;> omega

theorem matured_iff (now t0 : Time) :
    2 < Duration.Seconds (now.Sub t0) ↔ t0.ns + twoSeconds < now.ns := by
  rw [Seconds_gt_two_iff, Sub_gt_two_iff]

/-! ## Closed forms of the methods -/

theorem foldl_append_singleton {α β : Type} (f : α → β) (l : List α) (init : List β) :
    l.foldl (fun acc x => acc ++ [f x]) init = init ++ l.map f := by
  induction l generalizing init with
  | nil => simp
  | cons a l ih => simp [ih]

theorem FlushSegment_eq (m : MockWriteNodeClient) (now : Time) (segmentID collectionID : UniqueID)
    (partitionTag : String) (timestamp : Timestamp) :
    m.FlushSegment now segmentID collectionID partitionTag timestamp =
      { client := { segmentID := segmentID, flushTime := now, partitionTag := partitionTag,
                    timestamp := timestamp, collectionID := collectionID },
        resp := (), err := none } := rfl

theorem DescribeSegment_eq (m : MockWriteNodeClient) (now : Time) (segmentID : UniqueID) :
    m.DescribeSegment now segmentID =
      { client := m,
        resp := { SegmentID := segmentID,
                  IsClosed := decide (m.flushTime.ns + twoSeconds < now.ns),
                  OpenTime := 0, CloseTime := 1 },
        err := none } := by
  unfold MockWriteNodeClient.DescribeSegment
  by_cases h : m.flushTime.ns + twoSeconds < now.ns
  · rw [if_pos ((matured_iff _ _).2 h)]; simp [h]
  · rw [if_neg (fun h1 => h ((matured_iff _ _).1 h1))]; simp [h]

theorem GetIndexStates_eq (m : MockBuildIndexClient) (now : Time) (req : IndexStatesRequest) :
    m.GetIndexStates now req =
      { client := m,
        resp := { Status := { ErrorCode := ErrorCode.SUCCESS },
                  States := req.IndexIDs.map (fun indexID =>
                    { State := if m.buildTime.ns + twoSeconds < now.ns
                               then IndexState.FINISHED else IndexState.INPROGRESS,
                      IndexID := indexID }) },
        err := none } := by
  unfold MockBuildIndexClient.GetIndexStates
  by_cases h : m.buildTime.ns + twoSeconds < now.ns
  · rw [if_pos ((matured_iff _ _).2 h)]
    simp [h, foldl_append_singleton (fun indexID : Int =>
      ({ State := IndexState.FINISHED, IndexID := indexID } : IndexInfo))]
  · rw [if_neg (fun h1 => h ((matured_iff _ _).1 h1))]
    simp [h, foldl_append_singleton (fun indexID : Int =>
      ({ State := IndexState.INPROGRESS, IndexID := indexID } : IndexInfo))]

theorem GetIndexFilePaths_eq (m : MockBuildIndexClient) (req : IndexFilePathsRequest) :
    m.GetIndexFilePaths req =
      { client := m,
        resp := { Status := { ErrorCode := ErrorCode.SUCCESS },
                  FilePaths := req.IndexIDs.map (fun indexID =>
                    { Status := { ErrorCode := ErrorCode.SUCCESS },
                      IndexID := indexID,
                      IndexFilePaths :=
                        ["/binlog/index/file_1", "/binlog/index/file_2",
                         "/binlog/index/file_3"] }) },
        err := none } := by
  unfold MockBuildIndexClient.GetIndexFilePaths
  simp [foldl_append_singleton (fun indexID : Int =>
    ({ Status := { ErrorCode := ErrorCode.SUCCESS },
       IndexID := indexID,
       IndexFilePaths :=
         ["/binlog/index/file_1", "/binlog/index/file_2", "/binlog/index/file_3"] } :
      IndexFilePathInfo))]

theorem GetIndexStatesPtr_some (m : MockBuildIndexClient) (now : Time)
    (req : IndexStatesRequest) :
    m.GetIndexStatesPtr now (some req) = Except.ok (m.GetIndexStates now req) := by
  unfold MockBuildIndexClient.GetIndexStatesPtr MockBuildIndexClient.GetIndexStates
  by_cases h : 2 < Duration.Seconds (now.Sub m.buildTime)
  · simp only [if_pos h]
  · simp only [if_neg h]

theorem GetIndexStatesPtr_none (m : MockBuildIndexClient) (now : Time) :
    m.GetIndexStatesPtr now none = Except.error GoPanic.nilPointerDereference := by
  unfold MockBuildIndexClient.GetIndexStatesPtr
  by_cases h : 2 < Duration.Seconds (now.Sub m.buildTime)
  · simp only [if_pos h]
  · simp only [if_neg h]

theorem GetIndexFilePathsPtr_some (m : MockBuildIndexClient) (req : IndexFilePathsRequest) :
    m.GetIndexFilePathsPtr (some req) = Except.ok (m.GetIndexFilePaths req) := rfl

theorem GetIndexFilePathsPtr_none (m : MockBuildIndexClient) :
    m.GetIndexFilePathsPtr none = Except.error GoPanic.nilPointerDereference := rfl

/-! ## Flush maturation as seen by `DescribeSegment` -/

/-- C1 (as amended): after a flush of segment `S` submitted at instant `t0`,
with no other flush before the poll, `DescribeSegment(S)` at instant `t`
reports `isClosed = false` whenever `t ≤ t0 + 2 s` and `isClosed = true`
whenever `t > t0 + 2 s`; the boundary instant `t0 + 2 s` is still open. -/
theorem DescribeSegment_after_flush (m : MockWriteNodeClient) (S collectionID : UniqueID)
    (partitionTag : String) (timestamp : Timestamp) (t0 t : Time) :
    (t.ns ≤ t0.ns + twoSeconds →
      ((m.FlushSegment t0 S collectionID partitionTag timestamp).client.DescribeSegment
        t S).resp.IsClosed = false) ∧
    (t0.ns + twoSeconds < t.ns →
      ((m.FlushSegment t0 S collectionID partitionTag timestamp).client.DescribeSegment
        t S).resp.IsClosed = true) := by
  rw [FlushSegment_eq, DescribeSegment_eq]
  constructor
  · intro h
    simp only [decide_eq_false_iff_not, not_lt]
    exact h
  · intro h
    simp only [decide_eq_true_eq]
    exact h

/-- Witness of C1 (as amended): a flush at 5 s polled at 7 s (the boundary)
is open, polled one nanosecond later is closed. -/
theorem DescribeSegment_after_flush_witness :
    ((⟨7000000000⟩ : Time).ns ≤ (⟨5000000000⟩ : Time).ns + twoSeconds ∧
      (((MockWriteNodeClient.mk 0 ⟨0⟩ "" 0 0).FlushSegment
        ⟨5000000000⟩ 42 1 "p0" 100).client.DescribeSegment
          ⟨7000000000⟩ 42).resp.IsClosed = false) ∧
    ((⟨5000000000⟩ : Time).ns + twoSeconds < (⟨7000000001⟩ : Time).ns ∧
      (((MockWriteNodeClient.mk 0 ⟨0⟩ "" 0 0).FlushSegment
        ⟨5000000000⟩ 42 1 "p0" 100).client.DescribeSegment
          ⟨7000000001⟩ 42).resp.IsClosed = true) :=
  ⟨⟨by decide,
    (DescribeSegment_after_flush (MockWriteNodeClient.mk 0 ⟨0⟩ "" 0 0) 42 1 "p0" 100
      ⟨5000000000⟩ ⟨7000000000⟩).1 (by decide)⟩,
   ⟨by decide,
    (DescribeSegment_after_flush (MockWriteNodeClient.mk 0 ⟨0⟩ "" 0 0) 42 1 "p0" 100
      ⟨5000000000⟩ ⟨7000000001⟩).2 (by decide)⟩⟩

/-- Counterexample to C1 as stated: segment 42 is flushed at instant 5 s and
polled at instant 7 s, which is `t0 + 2 s`; the claim puts this boundary
instant in the closed case, the method reports the segment open. -/
theorem DescribeSegment_boundary_not_closed :
    (⟨5000000000⟩ : Time).ns + twoSeconds ≤ (⟨7000000000⟩ : Time).ns ∧
    (((MockWriteNodeClient.mk 0 ⟨0⟩ "" 0 0).FlushSegment
      ⟨5000000000⟩ 42 1 "p0" 100).client.DescribeSegment
        ⟨7000000000⟩ 42).resp.IsClosed ≠ true := by
  refine ⟨by decide, ?_⟩
  simp [MockWriteNodeClient.DescribeSegment, MockWriteNodeClient.FlushSegment, matured_iff,
    twoSeconds]

/-! ## Build maturation as seen by `GetIndexStates` -/

/-- C2: after a `BuildIndex` submitted at instant `t0`, with no other
submission before the poll, `GetIndexStates(I)` at an instant strictly before
`t0 + 2 s` answers `IN_PROGRESS` for every member of `I`, and at an instant
strictly after `t0 + 2 s` answers `FINISHED` for every member of `I`. -/
theorem GetIndexStates_after_build {α : Type} (m : MockBuildIndexClient) (req : α)
    (I : List Int) (t0 t : Time) :
    (t.ns < t0.ns + twoSeconds →
      ((m.BuildIndex t0 req).client.GetIndexStates t { IndexIDs := I }).resp.States =
        I.map (fun indexID => { State := IndexState.INPROGRESS, IndexID := indexID })) ∧
    (t0.ns + twoSeconds < t.ns →
      ((m.BuildIndex t0 req).client.GetIndexStates t { IndexIDs := I }).resp.States =
        I.map (fun indexID => { State := IndexState.FINISHED, IndexID := indexID })) := by
  rw [GetIndexStates_eq]
  constructor
  · intro h
    have h1 : ¬ ((m.BuildIndex t0 req).client.buildTime.ns + twoSeconds < t.ns) := by
      show ¬ (t0.ns + twoSeconds < t.ns)
      omega
    simp only [if_neg h1]
  · intro h
    have h1 : (m.BuildIndex t0 req).client.buildTime.ns + twoSeconds < t.ns := h
    simp only [if_pos h1]

/-- Witness of C2: a build submitted at 5 s and polled for `[1, 2]` at 6 s is
in progress, polled at 8 s is finished. -/
theorem GetIndexStates_after_build_witness :
    ((⟨6000000000⟩ : Time).ns < (⟨5000000000⟩ : Time).ns + twoSeconds ∧
      (((MockBuildIndexClient.mk ⟨0⟩).BuildIndex ⟨5000000000⟩ ()).client.GetIndexStates
        ⟨6000000000⟩ { IndexIDs := [1, 2] }).resp.States =
        [{ State := IndexState.INPROGRESS, IndexID := 1 },
         { State := IndexState.INPROGRESS, IndexID := 2 }]) ∧
    ((⟨5000000000⟩ : Time).ns + twoSeconds < (⟨8000000000⟩ : Time).ns ∧
      (((MockBuildIndexClient.mk ⟨0⟩).BuildIndex ⟨5000000000⟩ ()).client.GetIndexStates
        ⟨8000000000⟩ { IndexIDs := [1, 2] }).resp.States =
        [{ State := IndexState.FINISHED, IndexID := 1 },
         { State := IndexState.FINISHED, IndexID := 2 }]) :=
  ⟨⟨by decide,
    (GetIndexStates_after_build (MockBuildIndexClient.mk ⟨0⟩) () [1, 2]
      ⟨5000000000⟩ ⟨6000000000⟩).1 (by decide)⟩,
   ⟨by decide,
    (GetIndexStates_after_build (MockBuildIndexClient.mk ⟨0⟩) () [1, 2]
      ⟨5000000000⟩ ⟨8000000000⟩).2 (by decide)⟩⟩

/-- C3: for every client, poll instant and request list `ids`, the `States`
of `GetIndexStates` are `ids` mapped, in order, to entries that all carry the
same state `s`; `s` is a function of `now - buildTime` alone, it is
`IN_PROGRESS` or `FINISHED`, and the sequence has the length of `ids` with
`IndexID = ids[k]` at each position `k`. -/
theorem GetIndexStates_shape :
    ∃ s : Int → IndexState,
      (∀ elapsed, s elapsed = IndexState.INPROGRESS ∨ s elapsed = IndexState.FINISHED) ∧
      (∀ elapsed, s elapsed = IndexState.FINISHED ↔ twoSeconds < elapsed) ∧
      ∀ (m : MockBuildIndexClient) (now : Time) (ids : List Int),
        (m.GetIndexStates now { IndexIDs := ids }).resp.States =
          ids.map (fun id => { IndexID := id, State := s (now.ns - m.buildTime.ns) }) ∧
        (m.GetIndexStates now { IndexIDs := ids }).resp.States.length = ids.length ∧
        ∀ k : Nat,
          ((m.GetIndexStates now { IndexIDs := ids }).resp.States[k]?).map IndexInfo.IndexID =
            ids[k]? := by
  refine ⟨fun elapsed =>
    if twoSeconds < elapsed then IndexState.FINISHED else IndexState.INPROGRESS, ?_, ?_, ?_⟩
  · intro elapsed
    by_cases h : twoSeconds < elapsed
    · right; simp [h]
    · left; simp [h]
  · intro elapsed
    by_cases h : twoSeconds < elapsed <;> simp [h]
  · intro m now ids
    have hiff : (m.buildTime.ns + twoSeconds < now.ns) ↔ (twoSeconds < now.ns - m.buildTime.ns) := by
      omega
    rw [GetIndexStates_eq]
    refine ⟨?_, ?_, ?_⟩
    · simp only [hiff]
    · simp
    · intro k
      simp only [List.getElem?_map, Option.map_map]
      cases ids[k]? <;> rfl

/-- C4: for every request list `ids`, `GetIndexFilePaths` answers one
`IndexFilePathInfo` per requested identifier, in request order; the entry at
position `k` has `IndexID = ids[k]`, status `SUCCESS` and the three paths
`/binlog/index/file_1`, `/binlog/index/file_2`, `/binlog/index/file_3`, a
non-empty sequence; for `ids = [1, 2]` there are exactly two entries. -/
theorem GetIndexFilePaths_shape (m : MockBuildIndexClient) (ids : List Int) :
    (m.GetIndexFilePaths { IndexIDs := ids }).resp.FilePaths =
      ids.map (fun id =>
        { Status := { ErrorCode := ErrorCode.SUCCESS },
          IndexID := id,
          IndexFilePaths :=
            ["/binlog/index/file_1", "/binlog/index/file_2", "/binlog/index/file_3"] }) ∧
    (m.GetIndexFilePaths { IndexIDs := ids }).resp.FilePaths.length = ids.length ∧
    (∀ k : Nat,
      (m.GetIndexFilePaths { IndexIDs := ids }).resp.FilePaths[k]? =
        (ids[k]?).map (fun id =>
          { Status := { ErrorCode := ErrorCode.SUCCESS },
            IndexID := id,
            IndexFilePaths :=
              ["/binlog/index/file_1", "/binlog/index/file_2", "/binlog/index/file_3"] })) ∧
    (∀ info ∈ (m.GetIndexFilePaths { IndexIDs := ids }).resp.FilePaths,
      info.IndexFilePaths ≠ []) ∧
    (m.GetIndexFilePaths { IndexIDs := [1, 2] }).resp.FilePaths.length = 2 := by
  refine ⟨?_, ?_, ?_, ?_, ?_⟩
  · rw [GetIndexFilePaths_eq]
  · rw [GetIndexFilePaths_eq]
    exact List.length_map _ _
  · intro k
    rw [GetIndexFilePaths_eq]
    exact List.getElem?_map _ _ _
  · intro info hinfo
    rw [GetIndexFilePaths_eq] at hinfo
    obtain ⟨id, _, rfl⟩ := List.mem_map.1 hinfo
    exact List.cons_ne_nil _ _
  · rw [GetIndexFilePaths_eq]
    rfl

/-- Witness of C4: the answer for `[1, 2]`, whose second entry is a member
with a non-empty path sequence. -/
theorem GetIndexFilePaths_shape_witness :
    ((MockBuildIndexClient.mk ⟨0⟩).GetIndexFilePaths { IndexIDs := [1, 2] }).resp.FilePaths =
      [{ Status := { ErrorCode := ErrorCode.SUCCESS }, IndexID := 1,
         IndexFilePaths :=
           ["/binlog/index/file_1", "/binlog/index/file_2", "/binlog/index/file_3"] },
       { Status := { ErrorCode := ErrorCode.SUCCESS }, IndexID := 2,
         IndexFilePaths :=
           ["/binlog/index/file_1", "/binlog/index/file_2", "/binlog/index/file_3"] }] ∧
    ({ Status := { ErrorCode := ErrorCode.SUCCESS }, IndexID := 2,
       IndexFilePaths :=
         ["/binlog/index/file_1", "/binlog/index/file_2", "/binlog/index/file_3"] } :
      IndexFilePathInfo).IndexFilePaths ≠ [] :=
  ⟨(GetIndexFilePaths_shape (MockBuildIndexClient.mk ⟨0⟩) [1, 2]).1,
   (GetIndexFilePaths_shape (MockBuildIndexClient.mk ⟨0⟩) [1, 2]).2.2.2.1 _ (by decide)⟩

/-- C5: for every segment ID, client and poll instant, `DescribeSegment`
returns a nil error and the description `{SegmentID: id, IsClosed: c,
OpenTime: 0, CloseTime: 1}` with `c` true exactly when `now - flushTime` is
strictly more than two seconds; at exactly two seconds, and whenever `now` is
not later than `flushTime`, the segment is reported open. -/
theorem DescribeSegment_spec (m : MockWriteNodeClient) (now : Time) (id : UniqueID) :
    (m.DescribeSegment now id).err = none ∧
    (m.DescribeSegment now id).resp =
      { SegmentID := id, IsClosed := decide (twoSeconds < now.ns - m.flushTime.ns),
        OpenTime := 0, CloseTime := 1 } ∧
    ((m.DescribeSegment now id).resp.IsClosed = true ↔
      twoSeconds < now.ns - m.flushTime.ns) ∧
    (now.ns - m.flushTime.ns = twoSeconds → (m.DescribeSegment now id).resp.IsClosed = false) ∧
    (now.ns ≤ m.flushTime.ns → (m.DescribeSegment now id).resp.IsClosed = false) := by
  have hiff : (m.flushTime.ns + twoSeconds < now.ns) ↔ (twoSeconds < now.ns - m.flushTime.ns) := by
    omega
  rw [DescribeSegment_eq]
  refine ⟨rfl, ?_, ?_, ?_, ?_⟩
  · simp only [hiff]
  · simp only [decide_eq_true_eq, hiff]
  · intro h
    simp only [decide_eq_false_iff_not]
    omega
  · intro h
    simp only [decide_eq_false_iff_not]
    unfold twoSeconds
    omega

/-- Witness of C5: with `flushTime` at 5 s, a poll at exactly 7 s and a poll
at 3 s (before the flush) both report the segment open. -/
theorem DescribeSegment_spec_witness :
    ((⟨7000000000⟩ : Time).ns - (MockWriteNodeClient.mk 42 ⟨5000000000⟩ "p0" 100 1).flushTime.ns
        = twoSeconds ∧
      ((MockWriteNodeClient.mk 42 ⟨5000000000⟩ "p0" 100 1).DescribeSegment
        ⟨7000000000⟩ 42).resp.IsClosed = false) ∧
    ((⟨3000000000⟩ : Time).ns ≤ (MockWriteNodeClient.mk 42 ⟨5000000000⟩ "p0" 100 1).flushTime.ns ∧
      ((MockWriteNodeClient.mk 42 ⟨5000000000⟩ "p0" 100 1).DescribeSegment
        ⟨3000000000⟩ 42).resp.IsClosed = false) :=
  ⟨⟨by decide,
    (DescribeSegment_spec (MockWriteNodeClient.mk 42 ⟨5000000000⟩ "p0" 100 1)
      ⟨7000000000⟩ 42).2.2.2.1 (by decide)⟩,
   ⟨by decide,
    (DescribeSegment_spec (MockWriteNodeClient.mk 42 ⟨5000000000⟩ "p0" 100 1)
      ⟨3000000000⟩ 42).2.2.2.2 (by decide)⟩⟩

/-! ## The submission record -/

/-- C6: for every client and argument tuple submitted at instant `t0`,
`FlushSegment` returns a nil error and leaves the record equal to
`(segmentID, collectionID, partitionTag, timestamp, flushTime = t0)`, whatever
the record was before; the client after two successive flushes is the client
after the second flush alone. -/
theorem FlushSegment_overwrites (m : MockWriteNodeClient) (t0 : Time)
    (segmentID collectionID : UniqueID) (partitionTag : String) (timestamp : Timestamp) :
    (m.FlushSegment t0 segmentID collectionID partitionTag timestamp).err = none ∧
    (m.FlushSegment t0 segmentID collectionID partitionTag timestamp).client =
      { segmentID := segmentID, flushTime := t0, partitionTag := partitionTag,
        timestamp := timestamp, collectionID := collectionID } ∧
    (∀ m1 : MockWriteNodeClient,
      (m1.FlushSegment t0 segmentID collectionID partitionTag timestamp).client =
        (m.FlushSegment t0 segmentID collectionID partitionTag timestamp).client) ∧
    (∀ (t1 : Time) (segmentID1 collectionID1 : UniqueID) (partitionTag1 : String)
        (timestamp1 : Timestamp),
      ((m.FlushSegment t1 segmentID1 collectionID1 partitionTag1 timestamp1).client.FlushSegment
          t0 segmentID collectionID partitionTag timestamp).client =
        (m.FlushSegment t0 segmentID collectionID partitionTag timestamp).client) := by
  refine ⟨rfl, rfl, ?_, ?_⟩
  · intro m1
    rfl
  · intro t1 segmentID1 collectionID1 partitionTag1 timestamp1
    rfl

/-! ## Monotonicity and restart of the flush cycle -/

/-- C7: between flushes `isClosed` is monotonic in time: for every client and
poll instants `t1 ≤ t2` with only the first poll between them, a segment
reported closed at `t1` is reported closed at `t2`. -/
theorem DescribeSegment_closed_mono (m : MockWriteNodeClient) (id : UniqueID) (t1 t2 : Time)
    (h12 : t1.ns ≤ t2.ns)
    (h1 : (m.DescribeSegment t1 id).resp.IsClosed = true) :
    ((m.DescribeSegment t1 id).client.DescribeSegment t2 id).resp.IsClosed = true := by
  rw [DescribeSegment_eq] at h1
  have h : m.flushTime.ns + twoSeconds < t1.ns := by
    simpa only [decide_eq_true_eq] using h1
  rw [DescribeSegment_eq m t1 id, DescribeSegment_eq]
  simp only [decide_eq_true_eq]
  omega

/-- Witness of C7: a record flushed at 5 s is closed at 8 s and still closed
at 9 s. -/
theorem DescribeSegment_closed_mono_witness :
    (⟨8000000000⟩ : Time).ns ≤ (⟨9000000000⟩ : Time).ns ∧
    ((MockWriteNodeClient.mk 42 ⟨5000000000⟩ "p0" 100 1).DescribeSegment
      ⟨8000000000⟩ 42).resp.IsClosed = true ∧
    (((MockWriteNodeClient.mk 42 ⟨5000000000⟩ "p0" 100 1).DescribeSegment
      ⟨8000000000⟩ 42).client.DescribeSegment ⟨9000000000⟩ 42).resp.IsClosed = true :=
  have h1 : ((MockWriteNodeClient.mk 42 ⟨5000000000⟩ "p0" 100 1).DescribeSegment
      ⟨8000000000⟩ 42).resp.IsClosed = true := by
    simp [MockWriteNodeClient.DescribeSegment, matured_iff, twoSeconds]
  ⟨by decide, h1,
   DescribeSegment_closed_mono (MockWriteNodeClient.mk 42 ⟨5000000000⟩ "p0" 100 1) 42
     ⟨8000000000⟩ ⟨9000000000⟩ (by decide) h1⟩

/-- C8: a new flush restarts the cycle: for every client (also one that
currently reports the segment closed) and flush instant `t1`, after
`FlushSegment` at `t1` every `DescribeSegment` at an instant `t` with
`t1 ≤ t ≤ t1 + 2 s` reports `isClosed = false`; in particular the poll at the
submission instant itself reports open. -/
theorem FlushSegment_reopens (m : MockWriteNodeClient) (t1 t : Time)
    (segmentID collectionID : UniqueID) (partitionTag : String) (timestamp : Timestamp)
    (id : UniqueID) (_h1 : t1.ns ≤ t.ns) (h2 : t.ns ≤ t1.ns + twoSeconds) :
    ((m.FlushSegment t1 segmentID collectionID partitionTag timestamp).client.DescribeSegment
      t id).resp.IsClosed = false ∧
    ((m.FlushSegment t1 segmentID collectionID partitionTag timestamp).client.DescribeSegment
      t1 id).resp.IsClosed = false := by
  rw [FlushSegment_eq, DescribeSegment_eq, DescribeSegment_eq]
  simp only [decide_eq_false_iff_not, not_lt]
  refine ⟨h2, ?_⟩
  unfold twoSeconds
  omega

/-- Witness of C8: a record flushed at 0 s is closed at 9 s; a flush at 9 s
makes the polls at 9 s and at 11 s report open. -/
theorem FlushSegment_reopens_witness :
    ((MockWriteNodeClient.mk 42 ⟨0⟩ "p0" 100 1).DescribeSegment
      ⟨9000000000⟩ 42).resp.IsClosed = true ∧
    ((⟨9000000000⟩ : Time).ns ≤ (⟨11000000000⟩ : Time).ns ∧
      (⟨11000000000⟩ : Time).ns ≤ (⟨9000000000⟩ : Time).ns + twoSeconds) ∧
    (((MockWriteNodeClient.mk 42 ⟨0⟩ "p0" 100 1).FlushSegment
        ⟨9000000000⟩ 42 1 "p0" 101).client.DescribeSegment
      ⟨11000000000⟩ 42).resp.IsClosed = false ∧
    (((MockWriteNodeClient.mk 42 ⟨0⟩ "p0" 100 1).FlushSegment
        ⟨9000000000⟩ 42 1 "p0" 101).client.DescribeSegment
      ⟨9000000000⟩ 42).resp.IsClosed = false :=
  ⟨by simp [MockWriteNodeClient.DescribeSegment, matured_iff, twoSeconds],
   ⟨by decide, by decide⟩,
   FlushSegment_reopens (MockWriteNodeClient.mk 42 ⟨0⟩ "p0" 100 1) ⟨9000000000⟩
     ⟨11000000000⟩ 42 1 "p0" 101 42 (by decide) (by decide)⟩

/-! ## Monotonicity and restart of the build cycle -/

/-- C9: `FINISHED` is terminal until the next submission: for every client,
request list `ids` and poll instants `t1 ≤ t2` with only the first poll
between them, if `GetIndexStates(ids)` at `t1` reports `FINISHED` for its
entries then at `t2` it reports `FINISHED` for every entry; and after a new
`BuildIndex` at `t3`, `GetIndexStates` at any `t` with `t3 ≤ t ≤ t3 + 2 s`
reports `IN_PROGRESS` for every entry. -/
theorem GetIndexStates_finished_until_rebuild {α : Type} (m : MockBuildIndexClient)
    (ids : List Int) (t1 t2 t3 t : Time) (req : α) :
    (t1.ns ≤ t2.ns →
      (∀ info ∈ (m.GetIndexStates t1 { IndexIDs := ids }).resp.States,
        info.State = IndexState.FINISHED) →
      ((m.GetIndexStates t1 { IndexIDs := ids }).client.GetIndexStates
          t2 { IndexIDs := ids }).resp.States =
        ids.map (fun id => { State := IndexState.FINISHED, IndexID := id })) ∧
    (t3.ns ≤ t.ns → t.ns ≤ t3.ns + twoSeconds →
      ((m.BuildIndex t3 req).client.GetIndexStates t { IndexIDs := ids }).resp.States =
        ids.map (fun id => { State := IndexState.INPROGRESS, IndexID := id })) := by
  constructor
  · intro h12 hfin
    rw [GetIndexStates_eq] at hfin
    rw [GetIndexStates_eq m t1, GetIndexStates_eq]
    cases ids with
    | nil => rfl
    | cons a rest =>
      have ha := hfin _ (List.mem_map.2 ⟨a, List.mem_cons_self a rest, rfl⟩)
      have hm : m.buildTime.ns + twoSeconds < t1.ns := by
        by_contra hc
        simp only [if_neg hc] at ha
        exact absurd ha (by decide)
      have hm2 : m.buildTime.ns + twoSeconds < t2.ns := by omega
      simp only [if_pos hm2]
  · intro h3 h4
    rw [GetIndexStates_eq]
    have hn : ¬ ((m.BuildIndex t3 req).client.buildTime.ns + twoSeconds < t.ns) := by
      show ¬ (t3.ns + twoSeconds < t.ns)
      omega
    simp only [if_neg hn]

/-- Witness of C9: a build submitted at 0 s is finished for `[1, 2]` at 3 s
and at 4 s; a new build at 4 s is in progress at 6 s. -/
theorem GetIndexStates_finished_until_rebuild_witness :
    ((⟨3000000000⟩ : Time).ns ≤ (⟨4000000000⟩ : Time).ns ∧
      (((MockBuildIndexClient.mk ⟨0⟩).GetIndexStates ⟨3000000000⟩
          { IndexIDs := [1, 2] }).client.GetIndexStates
          ⟨4000000000⟩ { IndexIDs := [1, 2] }).resp.States =
        [{ State := IndexState.FINISHED, IndexID := 1 },
         { State := IndexState.FINISHED, IndexID := 2 }]) ∧
    (((⟨4000000000⟩ : Time).ns ≤ (⟨6000000000⟩ : Time).ns ∧
        (⟨6000000000⟩ : Time).ns ≤ (⟨4000000000⟩ : Time).ns + twoSeconds) ∧
      (((MockBuildIndexClient.mk ⟨0⟩).BuildIndex ⟨4000000000⟩ ()).client.GetIndexStates
          ⟨6000000000⟩ { IndexIDs := [1, 2] }).resp.States =
        [{ State := IndexState.INPROGRESS, IndexID := 1 },
         { State := IndexState.INPROGRESS, IndexID := 2 }]) :=
  ⟨⟨by decide,
    (GetIndexStates_finished_until_rebuild (MockBuildIndexClient.mk ⟨0⟩) [1, 2]
      ⟨3000000000⟩ ⟨4000000000⟩ ⟨4000000000⟩ ⟨6000000000⟩ ()).1 (by decide)
      (by simp [GetIndexStates_eq, twoSeconds])⟩,
   ⟨⟨by decide, by decide⟩,
    (GetIndexStates_finished_until_rebuild (MockBuildIndexClient.mk ⟨0⟩) [1, 2]
      ⟨3000000000⟩ ⟨4000000000⟩ ⟨4000000000⟩ ⟨6000000000⟩ ()).2 (by decide) (by decide)⟩⟩

/-- C10: for every request and prior client, `BuildIndex` called at instant
`t0` returns a nil error and the response `{Status.ErrorCode = SUCCESS,
IndexID = 1}` and sets `buildTime = t0`; the identifier is `1` again for any
later submission, whatever its request. -/
theorem BuildIndex_spec {α β : Type} (m : MockBuildIndexClient) (t0 : Time) (req : α) :
    (m.BuildIndex t0 req).err = none ∧
    (m.BuildIndex t0 req).resp =
      { Status := { ErrorCode := ErrorCode.SUCCESS }, IndexID := 1 } ∧
    (m.BuildIndex t0 req).client.buildTime = t0 ∧
    (∀ (t1 : Time) (req1 : β),
      ((m.BuildIndex t0 req).client.BuildIndex t1 req1).resp.IndexID = 1) := by
  refine ⟨rfl, rfl, rfl, ?_⟩
  intro t1 req1
  rfl

/-! ## The path queries -/

/-- C11: for every client and identifier argument, `GetInsertBinlogPaths`
called twice with the same segment ID returns equal mappings,
`GetIndexFilePaths` called twice with the same ID list returns equal ordered
sequences, and neither call changes the client (the submission fields and
`flushTime`, respectively `buildTime`, are the same after the call). -/
theorem path_queries_idempotent (w : MockWriteNodeClient) (b : MockBuildIndexClient)
    (segmentID : UniqueID) (ids : List Int) :
    ((w.GetInsertBinlogPaths segmentID).client.GetInsertBinlogPaths segmentID).resp =
      (w.GetInsertBinlogPaths segmentID).resp ∧
    ((b.GetIndexFilePaths { IndexIDs := ids }).client.GetIndexFilePaths
        { IndexIDs := ids }).resp.FilePaths =
      (b.GetIndexFilePaths { IndexIDs := ids }).resp.FilePaths ∧
    ((b.GetIndexFilePaths { IndexIDs := ids }).client.GetIndexFilePaths { IndexIDs := ids }).resp =
      (b.GetIndexFilePaths { IndexIDs := ids }).resp ∧
    (w.GetInsertBinlogPaths segmentID).client = w ∧
    (w.GetInsertBinlogPaths segmentID).client.flushTime = w.flushTime ∧
    (b.GetIndexFilePaths { IndexIDs := ids }).client = b ∧
    (b.GetIndexFilePaths { IndexIDs := ids }).client.buildTime = b.buildTime ∧
    ((w.GetInsertBinlogPaths segmentID).client.GetInsertBinlogPaths segmentID).client = w ∧
    ((b.GetIndexFilePaths { IndexIDs := ids }).client.GetIndexFilePaths
        { IndexIDs := ids }).client = b := by
  refine ⟨rfl, rfl, rfl, rfl, rfl, rfl, rfl, rfl, rfl⟩

/-- C12 (as amended): the mocks never fail on a non-nil request: for every
state, instant and input in which the request passed to `GetIndexStates` and
to `GetIndexFilePaths` is a non-nil pointer, each of `FlushSegment`,
`DescribeSegment`, `GetInsertBinlogPaths`, `BuildIndex`, `GetIndexStates`,
`GetIndexFilePaths` and `LoadIndex` returns, with a nil error, and the
top-level `Status` of `BuildIndex`, `GetIndexStates` and `GetIndexFilePaths`
as well as the `Status` of each `IndexFilePathInfo` carry
`ErrorCode = SUCCESS`; `BuildIndex` does so for any request, nil included. -/
theorem mocks_never_fail {α : Type} (w : MockWriteNodeClient) (b : MockBuildIndexClient)
    (l : MockLoadIndexClient) (now : Time) (segmentID collectionID : UniqueID)
    (partitionTag : String) (timestamp : Timestamp) (buildReq : Option α)
    (statesReq : IndexStatesRequest) (pathsReq : IndexFilePathsRequest)
    (indexPaths : List String) (loadSegmentID fieldID : Int) (fieldName : String)
    (indexParams : List (String × String)) :
    (w.FlushSegment now segmentID collectionID partitionTag timestamp).err = none ∧
    (w.DescribeSegment now segmentID).err = none ∧
    (w.GetInsertBinlogPaths segmentID).err = none ∧
    ((b.BuildIndex now buildReq).err = none ∧
      (b.BuildIndex now buildReq).resp.Status.ErrorCode = ErrorCode.SUCCESS) ∧
    (∃ r, b.GetIndexStatesPtr now (some statesReq) = Except.ok r ∧
      r.err = none ∧ r.resp.Status.ErrorCode = ErrorCode.SUCCESS) ∧
    (∃ r, b.GetIndexFilePathsPtr (some pathsReq) = Except.ok r ∧
      r.err = none ∧ r.resp.Status.ErrorCode = ErrorCode.SUCCESS ∧
      ∀ info ∈ r.resp.FilePaths, info.Status.ErrorCode = ErrorCode.SUCCESS) ∧
    (l.LoadIndex indexPaths loadSegmentID fieldID fieldName indexParams).err = none := by
  refine ⟨rfl, ?_, rfl, ⟨rfl, rfl⟩, ?_, ?_, rfl⟩
  · rw [DescribeSegment_eq]
  · refine ⟨b.GetIndexStates now statesReq, GetIndexStatesPtr_some b now statesReq, ?_, ?_⟩
    · rw [GetIndexStates_eq]
    · rw [GetIndexStates_eq]
  · refine ⟨b.GetIndexFilePaths pathsReq, GetIndexFilePathsPtr_some b pathsReq, rfl, rfl, ?_⟩
    intro info hinfo
    rw [GetIndexFilePaths_eq] at hinfo
    obtain ⟨id, _, rfl⟩ := List.mem_map.1 hinfo
    rfl

/-- Witness of C12 (as amended): on clients flushed and built at 5 s and
polled at 9 s with the non-nil requests `[1, 2]`, a nil build request is
accepted, the poll returns and the file-path query returns. -/
theorem mocks_never_fail_witness :
    ((MockBuildIndexClient.mk ⟨5000000000⟩).BuildIndex ⟨9000000000⟩
      (none : Option Unit)).err = none ∧
    (∃ r, (MockBuildIndexClient.mk ⟨5000000000⟩).GetIndexStatesPtr ⟨9000000000⟩
        (some { IndexIDs := [1, 2] }) = Except.ok r ∧
      r.err = none ∧ r.resp.Status.ErrorCode = ErrorCode.SUCCESS) ∧
    (∃ r, (MockBuildIndexClient.mk ⟨5000000000⟩).GetIndexFilePathsPtr
        (some { IndexIDs := [1, 2] }) = Except.ok r ∧
      r.err = none ∧ r.resp.Status.ErrorCode = ErrorCode.SUCCESS ∧
      ∀ info ∈ r.resp.FilePaths, info.Status.ErrorCode = ErrorCode.SUCCESS) :=
  ⟨(mocks_never_fail (MockWriteNodeClient.mk 42 ⟨5000000000⟩ "p0" 100 1)
      (MockBuildIndexClient.mk ⟨5000000000⟩) MockLoadIndexClient.mk ⟨9000000000⟩ 42 1 "p0" 100
      (none : Option Unit) { IndexIDs := [1, 2] } { IndexIDs := [1, 2] }
      ["/binlog/index/file_1"] 7 3 "vec" []).2.2.2.1.1,
   (mocks_never_fail (MockWriteNodeClient.mk 42 ⟨5000000000⟩ "p0" 100 1)
      (MockBuildIndexClient.mk ⟨5000000000⟩) MockLoadIndexClient.mk ⟨9000000000⟩ 42 1 "p0" 100
      (none : Option Unit) { IndexIDs := [1, 2] } { IndexIDs := [1, 2] }
      ["/binlog/index/file_1"] 7 3 "vec" []).2.2.2.2.1,
   (mocks_never_fail (MockWriteNodeClient.mk 42 ⟨5000000000⟩ "p0" 100 1)
      (MockBuildIndexClient.mk ⟨5000000000⟩) MockLoadIndexClient.mk ⟨9000000000⟩ 42 1 "p0" 100
      (none : Option Unit) { IndexIDs := [1, 2] } { IndexIDs := [1, 2] }
      ["/binlog/index/file_1"] 7 3 "vec" []).2.2.2.2.2.1⟩

/-- Counterexample to C12 as stated: with a nil request, `GetIndexStates` (on
a client built at 5 s, polled at 6 s and at 9 s) and `GetIndexFilePaths` do
not return a nil error: both panic on the nil-pointer dereference of
`req.IndexIDs` and return nothing. -/
theorem nil_request_panics :
    (MockBuildIndexClient.mk ⟨5000000000⟩).GetIndexStatesPtr ⟨6000000000⟩ none =
      Except.error GoPanic.nilPointerDereference ∧
    (MockBuildIndexClient.mk ⟨5000000000⟩).GetIndexStatesPtr ⟨9000000000⟩ none =
      Except.error GoPanic.nilPointerDereference ∧
    (MockBuildIndexClient.mk ⟨5000000000⟩).GetIndexFilePathsPtr none =
      Except.error GoPanic.nilPointerDereference := by
  refine ⟨?_, ?_, rfl⟩
  · simp [MockBuildIndexClient.GetIndexStatesPtr, matured_iff, twoSeconds]
  · simp [MockBuildIndexClient.GetIndexStatesPtr, matured_iff, twoSeconds]

/-- C13: `GetIndexFilePaths` is independent of build maturation: for every ID
list `ids` and any two clients (never built, built and still in progress, or
finished), the response is the same; it is a function of `ids` alone. -/
theorem GetIndexFilePaths_independent_of_build :
    (∃ F : List Int → IndexFilePathsResponse,
      ∀ (m : MockBuildIndexClient) (ids : List Int),
        (m.GetIndexFilePaths { IndexIDs := ids }).resp = F ids) ∧
    (∀ (m1 m2 : MockBuildIndexClient) (ids : List Int),
      (m1.GetIndexFilePaths { IndexIDs := ids }).resp =
        (m2.GetIndexFilePaths { IndexIDs := ids }).resp ∧
      (m1.GetIndexFilePaths { IndexIDs := ids }).err =
        (m2.GetIndexFilePaths { IndexIDs := ids }).err) ∧
    (∀ (m : MockBuildIndexClient) (t0 : Time) (ids : List Int),
      ((m.BuildIndex t0 ()).client.GetIndexFilePaths { IndexIDs := ids }).resp =
        (MockBuildIndexClient.zero.GetIndexFilePaths { IndexIDs := ids }).resp) := by
  refine ⟨⟨fun ids => (MockBuildIndexClient.zero.GetIndexFilePaths { IndexIDs := ids }).resp,
    ?_⟩, ?_, ?_⟩
  · intro m ids
    rfl
  · intro m1 m2 ids
    exact ⟨rfl, rfl⟩
  · intro m t0 ids
    rfl

/-- C14: for every segment ID, client and instant, `GetInsertBinlogPaths`
returns the same mapping with exactly the two keys `1` and `100`, key `1`
mapped to `[/binlog/insert/file_1]` and key `100` to
`[/binlog/insert/file_100]`; the result depends neither on the segment ID nor
on the flush state. -/
theorem GetInsertBinlogPaths_fixed (m : MockWriteNodeClient) (segmentID : UniqueID) :
    (m.GetInsertBinlogPaths segmentID).resp.map Prod.fst = [1, 100] ∧
    (m.GetInsertBinlogPaths segmentID).resp.lookup 1 = some ["/binlog/insert/file_1"] ∧
    (m.GetInsertBinlogPaths segmentID).resp.lookup 100 = some ["/binlog/insert/file_100"] ∧
    (∀ key : UniqueID, key ≠ 1 → key ≠ 100 →
      (m.GetInsertBinlogPaths segmentID).resp.lookup key = none) ∧
    (m.GetInsertBinlogPaths segmentID).err = none ∧
    (∀ (m1 : MockWriteNodeClient) (segmentID1 : UniqueID),
      (m1.GetInsertBinlogPaths segmentID1).resp = (m.GetInsertBinlogPaths segmentID).resp) ∧
    (∀ (t0 : Time) (segmentID1 collectionID : UniqueID) (partitionTag : String)
        (timestamp : Timestamp),
      ((m.FlushSegment t0 segmentID1 collectionID partitionTag timestamp).client.GetInsertBinlogPaths
          segmentID).resp = (MockWriteNodeClient.zero.GetInsertBinlogPaths segmentID).resp) := by
  refine ⟨rfl, rfl, rfl, ?_, rfl, ?_, ?_⟩
  · intro key h1 h100
    have e1 : (key == (1 : Int)) = false := by simpa using h1
    have e100 : (key == (100 : Int)) = false := by simpa using h100
    simp [MockWriteNodeClient.GetInsertBinlogPaths, List.lookup, e1, e100]
  · intro m1 segmentID1
    rfl
  · intro t0 segmentID1 collectionID partitionTag timestamp
    rfl

/-- Witness of C14: key `7` is neither `1` nor `100` and is absent from the
mapping returned for segment 42 by a client flushed at 5 s. -/
theorem GetInsertBinlogPaths_fixed_witness :
    ((7 : UniqueID) ≠ 1 ∧ (7 : UniqueID) ≠ 100) ∧
    ((MockWriteNodeClient.mk 42 ⟨5000000000⟩ "p0" 100 1).GetInsertBinlogPaths 42).resp.lookup 7
      = none :=
  ⟨⟨by decide, by decide⟩,
   (GetInsertBinlogPaths_fixed (MockWriteNodeClient.mk 42 ⟨5000000000⟩ "p0" 100 1) 42).2.2.2.1
     7 (by decide) (by decide)⟩

/-! ## One clock for all segments, read-only polls, fresh clients -/

/-- C15: the flush clock is shared by all segments: for every client, instant
and segment IDs `a` and `b`, `DescribeSegment(a)` and `DescribeSegment(b)`
report the same `isClosed`, which does not depend on the stored `segmentID`
either; so when segment `a` was flushed and is reported closed, a
`FlushSegment` for another segment `b` at instant `t1` makes
`DescribeSegment(a)` report `isClosed = false` at every instant of
`[t1, t1 + 2 s]`, without any new flush of `a`. -/
theorem flush_clock_shared (m : MockWriteNodeClient) (now t0 t1 t : Time) (a b stored : UniqueID)
    (collectionID collectionID1 : UniqueID) (partitionTag partitionTag1 : String)
    (timestamp timestamp1 : Timestamp) :
    (m.DescribeSegment now a).resp.IsClosed = (m.DescribeSegment now b).resp.IsClosed ∧
    (({ m with segmentID := stored }).DescribeSegment now a).resp.IsClosed =
      (m.DescribeSegment now a).resp.IsClosed ∧
    (a ≠ b →
      ((m.FlushSegment t0 a collectionID partitionTag timestamp).client.DescribeSegment
        t1 a).resp.IsClosed = true →
      t1.ns ≤ t.ns → t.ns ≤ t1.ns + twoSeconds →
      (((m.FlushSegment t0 a collectionID partitionTag timestamp).client.FlushSegment
          t1 b collectionID1 partitionTag1 timestamp1).client.DescribeSegment
        t a).resp.IsClosed = false) := by
  refine ⟨?_, ?_, ?_⟩
  · rw [DescribeSegment_eq, DescribeSegment_eq]
  · rw [DescribeSegment_eq, DescribeSegment_eq]
  · intro _ _ _ h2
    rw [FlushSegment_eq, DescribeSegment_eq]
    simp only [decide_eq_false_iff_not, not_lt]
    exact h2

/-- Witness of C15: segment 1 is flushed at 0 s and closed at 9 s; a flush of
segment 2 at 9 s makes the poll of segment 1 at 10 s report open. -/
theorem flush_clock_shared_witness :
    ((1 : UniqueID) ≠ 2 ∧
      ((MockWriteNodeClient.zero.FlushSegment ⟨0⟩ 1 7 "p0" 100).client.DescribeSegment
        ⟨9000000000⟩ 1).resp.IsClosed = true ∧
      (⟨9000000000⟩ : Time).ns ≤ (⟨10000000000⟩ : Time).ns ∧
      (⟨10000000000⟩ : Time).ns ≤ (⟨9000000000⟩ : Time).ns + twoSeconds) ∧
    (((MockWriteNodeClient.zero.FlushSegment ⟨0⟩ 1 7 "p0" 100).client.FlushSegment
        ⟨9000000000⟩ 2 7 "p1" 101).client.DescribeSegment
      ⟨10000000000⟩ 1).resp.IsClosed = false :=
  have hc : ((MockWriteNodeClient.zero.FlushSegment ⟨0⟩ 1 7 "p0" 100).client.DescribeSegment
      ⟨9000000000⟩ 1).resp.IsClosed = true := by
    simp [MockWriteNodeClient.DescribeSegment, MockWriteNodeClient.FlushSegment, matured_iff,
      twoSeconds]
  ⟨⟨by decide, hc, by decide, by decide⟩,
   (flush_clock_shared MockWriteNodeClient.zero ⟨9000000000⟩ ⟨0⟩ ⟨9000000000⟩ ⟨10000000000⟩
      1 2 0 7 7 "p0" "p1" 100 101).2.2 (by decide) hc (by decide) (by decide)⟩

/-- C16: polls are read-only: for every client, instant and argument,
`DescribeSegment` leaves `segmentID`, `collectionID`, `partitionTag`,
`timestamp` and `flushTime` unchanged and `GetIndexStates` leaves `buildTime`
unchanged, so two polls with the same argument at the same instant return
equal results and a poll never advances or resets a maturation clock. -/
theorem polls_read_only (w : MockWriteNodeClient) (b : MockBuildIndexClient) (now : Time)
    (segmentID : UniqueID) (ids : List Int) :
    ((w.DescribeSegment now segmentID).client.segmentID = w.segmentID ∧
      (w.DescribeSegment now segmentID).client.collectionID = w.collectionID ∧
      (w.DescribeSegment now segmentID).client.partitionTag = w.partitionTag ∧
      (w.DescribeSegment now segmentID).client.timestamp = w.timestamp ∧
      (w.DescribeSegment now segmentID).client.flushTime = w.flushTime) ∧
    (b.GetIndexStates now { IndexIDs := ids }).client.buildTime = b.buildTime ∧
    ((w.DescribeSegment now segmentID).client.DescribeSegment now segmentID).resp =
      (w.DescribeSegment now segmentID).resp ∧
    ((b.GetIndexStates now { IndexIDs := ids }).client.GetIndexStates
        now { IndexIDs := ids }).resp =
      (b.GetIndexStates now { IndexIDs := ids }).resp ∧
    (∀ (later : Time) (segmentID1 : UniqueID),
      ((w.DescribeSegment now segmentID).client.DescribeSegment later segmentID1).resp =
        (w.DescribeSegment later segmentID1).resp) ∧
    (∀ (later : Time) (ids1 : List Int),
      ((b.GetIndexStates now { IndexIDs := ids }).client.GetIndexStates
          later { IndexIDs := ids1 }).resp =
        (b.GetIndexStates later { IndexIDs := ids1 }).resp) := by
  have hw : (w.DescribeSegment now segmentID).client = w := by rw [DescribeSegment_eq]
  have hb : (b.GetIndexStates now { IndexIDs := ids }).client = b := by rw [GetIndexStates_eq]
  refine ⟨⟨?_, ?_, ?_, ?_, ?_⟩, ?_, ?_, ?_, ?_, ?_⟩
  · rw [hw]
  · rw [hw]
  · rw [hw]
  · rw [hw]
  · rw [hw]
  · rw [hb]
  · rw [hw]
  · rw [hb]
  · intro later segmentID1
    rw [hw]
  · intro later ids1
    rw [hb]

/-- C17: a client on which nothing was submitted reports completion: for the
zero-valued `MockWriteNodeClient` and every poll instant more than two seconds
after the zero instant, `DescribeSegment` returns `isClosed = true` for every
segment ID, and for the zero-valued `MockBuildIndexClient` `GetIndexStates`
returns `FINISHED` for every requested ID; when the difference exceeds the
64-bit range, `Sub` saturates at `maxDuration`, which still exceeds two
seconds. -/
theorem zero_client_reports_done (now : Time) (segmentID : UniqueID) (ids : List Int)
    (h : Time.zero.ns + twoSeconds < now.ns) :
    (MockWriteNodeClient.zero.DescribeSegment now segmentID).resp.IsClosed = true ∧
    (MockBuildIndexClient.zero.GetIndexStates now { IndexIDs := ids }).resp.States =
      ids.map (fun id => { State := IndexState.FINISHED, IndexID := id }) ∧
    (maxDuration < now.ns - Time.zero.ns → now.Sub Time.zero = maxDuration) ∧
    2 < Duration.Seconds maxDuration := by
  refine ⟨?_, ?_, ?_, ?_⟩
  · rw [DescribeSegment_eq]
    simp only [decide_eq_true_eq]
    exact h
  · rw [GetIndexStates_eq]
    have hb : MockBuildIndexClient.zero.buildTime.ns + twoSeconds < now.ns := h
    simp only [if_pos hb]
  · intro hs
    unfold Time.Sub
    simp only
    have h1 : ¬ (now.ns - Time.zero.ns < minDuration) := by
      unfold minDuration
      unfold maxDuration at hs
      omega
    rw [if_neg h1, if_pos hs]
  · rw [Seconds_gt_two_iff]
    decide

/-- Witness of C17: a poll 63 900 000 000 s after the zero instant (the
2020s by the wall clock) on fresh clients: the difference saturates, segment
42 is closed and the IDs `[1, 2]` are finished. -/
theorem zero_client_reports_done_witness :
    (Time.zero.ns + twoSeconds < (⟨63900000000000000000⟩ : Time).ns ∧
      maxDuration < (⟨63900000000000000000⟩ : Time).ns - Time.zero.ns) ∧
    (MockWriteNodeClient.zero.DescribeSegment ⟨63900000000000000000⟩ 42).resp.IsClosed = true ∧
    (MockBuildIndexClient.zero.GetIndexStates ⟨63900000000000000000⟩
        { IndexIDs := [1, 2] }).resp.States =
      [{ State := IndexState.FINISHED, IndexID := 1 },
       { State := IndexState.FINISHED, IndexID := 2 }] ∧
    (⟨63900000000000000000⟩ : Time).Sub Time.zero = maxDuration :=
  ⟨⟨by decide, by decide⟩,
   (zero_client_reports_done ⟨63900000000000000000⟩ 42 [1, 2] (by decide)).1,
   (zero_client_reports_done ⟨63900000000000000000⟩ 42 [1, 2] (by decide)).2.1,
   (zero_client_reports_done ⟨63900000000000000000⟩ 42 [1, 2] (by decide)).2.2.1 (by decide)⟩

end master
